import Mathlib

/-!
Verification development for the digital-library backend
(`backend/app`): a shallow embedding of the data model and of the
route handlers in `routes/loans.py`, `routes/reviews.py`,
`routes/books.py`, `routes/bulk_upload.py` and the pydantic validators
in `models.py`, together with theorems settling the spec claims.

Modelling conventions:
* SQL tables become Lean lists of structures; `id` columns are primary
  keys (the concrete states used in theorems have distinct ids).
* Timestamps (`NOW()`, `datetime.now()`) are an `Int` parameter `now`;
  the loan duration is counted in the same unit (days).
* Each MySQL statement executed through `execute_query(..., fetch=False)`
  commits on its own; a handler that opens its own connection and calls
  `connection.commit()` / `connection.rollback()` is modelled as a
  function returning the committed database (rollback returns the input
  database unchanged).
* HTTP outcomes are modelled as error enumerations, one constructor per
  `create_response` / `HTTPException` site of the handler, with the
  HTTP status code recoverable through a `httpStatus` function.
-/

/-- Loan status column: `status ∈ {activo, devuelto, vencido}`. -/
inductive LoanStatus where
  | activo
  | devuelto
  | vencido
deriving DecidableEq, Repr

/-- User role, as carried by the JWT payload (`current_user["role"]`). -/
inductive Role where
  | usuario
  | admin
deriving DecidableEq, Repr

/-- Row of the `users` table (fields used by the loan/review handlers;
authentication fields live behind the Access Control boundary). -/
structure User where
  id : Nat
  username : String
  role : Role
deriving DecidableEq, Repr

/-- Row of the `books` table (fields read or written by the handlers
under verification). -/
structure Book where
  id : Nat
  title : String
  author : String
  isbn : String
  description : Option String
  category : Option String
  publication_year : Option Int
  total_copies : Nat
  available_copies : Nat
  cover_url : Option String
deriving DecidableEq, Repr

/-- Row of the `loans` table. -/
structure Loan where
  id : Nat
  user_id : Nat
  book_id : Nat
  loan_date : Int
  due_date : Int
  return_date : Option Int
  status : LoanStatus
  has_review : Bool
deriving DecidableEq, Repr

/-- Row of the `reviews` table. -/
structure Review where
  id : Nat
  user_id : Nat
  book_id : Nat
  rating : Nat
  comment : Option String
  created_at : Int
deriving DecidableEq, Repr

/-- The relational store: the four tables the verified handlers touch. -/
structure DB where
  users : List User
  books : List Book
  loans : List Loan
  reviews : List Review
deriving DecidableEq, Repr

/-! ## Shared read helpers (`loans.py`, `reviews.py`) -/

/-- Embeds `SELECT id FROM users WHERE username = %s` (usernames are unique);
embeds both `get_user_id_by_username` (loans.py) and `get_user_id`
(reviews.py). -/
def get_user_id_by_username (db : DB) (username : String) : Option Nat :=
  (db.users.find? (fun u => u.username == username)).map (fun u => u.id)

/-- Embeds `SELECT ... FROM books WHERE id = %s`. -/
def findBook (db : DB) (book_id : Nat) : Option Book :=
  db.books.find? (fun b => b.id == book_id)

/-- Embeds `check_book_availability` (loans.py): `False` when the book row is
missing, otherwise `available_copies > 0`. -/
def check_book_availability (db : DB) (book_id : Nat) : Bool :=
  match findBook db book_id with
  | none => false
  | some b => decide (b.available_copies > 0)

/-- Embeds `count_active_loans` (loans.py):
`SELECT COUNT(*) FROM loans WHERE user_id = %s AND status = 'activo'`. -/
def count_active_loans (db : DB) (user_id : Nat) : Nat :=
  (db.loans.filter (fun l => l.user_id == user_id && l.status == LoanStatus.activo)).length

/-! ## ISBN validation: catalog path (`models.py`, `BookBase.validate_isbn`) -/

/-- Numeric value of a decimal digit character (`int(x)` in the source,
applied only to characters already checked to be digits). -/
def digitVal (c : Char) : Nat :=
  c.toNat - '0'.toNat

/-- ISBN-10 character value: `10 if x == 'X' else int(x)`. -/
def charValX (c : Char) : Nat :=
  if c == 'X' then 10 else digitVal c

/-- Embeds `v.replace('-', '').replace(' ', '').upper()`: drop every hyphen and
space, then uppercase (ISBN candidates are ASCII, where Python `upper`
agrees with `Char.toUpper`). -/
def isbnClean (s : String) : List Char :=
  (s.data.filter (fun c => !(c == '-') && !(c == ' '))).map Char.toUpper

/-- The regex `^\d{9}[\dX]$` applied to a cleaned candidate. -/
def isbn10FormatOk (l : List Char) : Bool :=
  l.length == 10 && (l.take 9).all Char.isDigit &&
    (match l.getLast? with
     | some c => c.isDigit || c == 'X'
     | none => false)

/-- Embeds `sum((10 - i) * (10 if x == 'X' else int(x)) for i, x in enumerate(isbn_clean))`. -/
def isbn10CodeSum (l : List Char) : Nat :=
  (l.enum.map (fun p => (10 - p.1) * charValX p.2)).sum

/-- Embeds `sum((int(x) * (1 if i % 2 == 0 else 3)) for i, x in enumerate(isbn_clean[:-1]))`. -/
def isbn13CodeSum (l : List Char) : Nat :=
  (l.dropLast.enum.map (fun p => digitVal p.2 * (if p.1 % 2 == 0 then 1 else 3))).sum

/-- Embeds `BookBase.validate_isbn` on an already-cleaned candidate: the chain
of length / format / checksum checks, returning the normalized ISBN or
the `ValueError` message. -/
def validate_isbn_clean (l : List Char) : Except String (List Char) :=
  if l.length == 10 then
    if !isbn10FormatOk l then
      Except.error "ISBN-10 debe tener 9 digitos y un digito o X final"
    else if !(isbn10CodeSum l % 11 == 0) then
      Except.error "ISBN-10 invalido (checksum incorrecto)"
    else Except.ok l
  else if l.length == 13 then
    if !(l.all Char.isDigit) then
      Except.error "ISBN-13 debe contener solo digitos"
    else if !((10 - (isbn13CodeSum l % 10)) % 10 == digitVal (l.getLast?.getD '0')) then
      Except.error "ISBN-13 invalido (checksum incorrecto)"
    else Except.ok l
  else Except.error "ISBN debe tener 10 o 13 caracteres validos"

/-- Embeds `BookBase.validate_isbn`: clean, then validate. -/
def validate_isbn (s : String) : Except String (List Char) :=
  validate_isbn_clean (isbnClean s)

/-- Whether the catalog-path validator accepts the candidate. -/
def isbnOk (s : String) : Bool :=
  match validate_isbn s with
  | Except.ok _ => true
  | Except.error _ => false

/-! ## ISBN validation: bulk-import path (`bulk_upload.py`, `is_valid_isbn13`) -/

/-- Python `str.strip()`: drop whitespace from both ends. -/
def pyStrip (l : List Char) : List Char :=
  ((l.dropWhile Char.isWhitespace).reverse.dropWhile Char.isWhitespace).reverse

/-- Embeds `isbn.replace("-", "").strip()`. -/
def bulkClean (s : String) : List Char :=
  pyStrip (s.data.filter (fun c => !(c == '-')))

/-- Embeds `is_valid_isbn13` (bulk_upload.py): digits-only, length 13, and the
ISBN-13 check digit matches.  The weighted sum is
`sum((int(num) if i % 2 == 0 else int(num) * 3) for i, num in enumerate(isbn[:-1]))`. -/
def is_valid_isbn13 (s : String) : Bool :=
  let l := bulkClean s
  if !(l.all Char.isDigit && decide (l ≠ [])) || !(l.length == 13) then false
  else
    let total := (l.dropLast.enum.map
      (fun p => if p.1 % 2 == 0 then digitVal p.2 else digitVal p.2 * 3)).sum
    (10 - total % 10) % 10 == digitVal (l.getLast?.getD '0')

/-! ## Spec-side ISBN checksum formulas (from the spec text, for the
characterization claim): positional sums written as indexed recursion. -/

/-- Indexed weighted sum Σ w(i, cᵢ) over a character list, index starting
at `i`. -/
def wSum (w : Nat → Char → Nat) : Nat → List Char → Nat
  | _, [] => 0
  | i, c :: rest => w i c + wSum w (i + 1) rest

/-- Spec formula for ISBN-10: 9 digits plus a final digit or X, and
Σ((10−i)·digitᵢ) for i = 0..9 (X = 10) divisible by 11. -/
def isbn10Spec (l : List Char) : Bool :=
  isbn10FormatOk l && wSum (fun i c => (10 - i) * charValX c) 0 l % 11 == 0

/-- Spec formula for ISBN-13: 13 digits, and the check digit
`(10 − (Σ mod 10)) mod 10` over the first 12 digits with alternating
weights 1, 3 equals the 13th digit. -/
def isbn13Spec (l : List Char) : Bool :=
  l.length == 13 && l.all Char.isDigit &&
    ((10 - (wSum (fun i c => digitVal c * (if i % 2 == 0 then 1 else 3)) 0 l.dropLast % 10)) % 10
      == digitVal (l.getLast?.getD '0'))

/-! ## Loan creation (`loans.py`, `create_loan`) -/

/-- Embeds `MAX_LOANS_PER_USER = 3`. -/
def MAX_LOANS_PER_USER : Nat := 3

/-- Embeds `LOAN_DURATION_DAYS = 14` (time is counted in days). -/
def LOAN_DURATION_DAYS : Int := 14

/-- Outcome classes of `create_loan`, one per `create_response` error
site; `conflict` is the zero-row conditional decrement inside the
transaction (HTTP 400, "Error al actualizar disponibilidad del libro"),
the spec's `Conflict` error kind. -/
inductive LoanError where
  | userNotFound
  | bookNotFound
  | noAvailability
  | loanLimitExceeded
  | duplicateLoan
  | conflict
deriving DecidableEq, Repr

/-- HTTP status returned by `create_loan` for each error class. -/
def LoanError.httpStatus : LoanError → Nat
  | .userNotFound => 404
  | .bookNotFound => 404
  | .noAvailability => 400
  | .loanLimitExceeded => 400
  | .duplicateLoan => 400
  | .conflict => 400

/-- Embeds `SELECT id FROM loans WHERE user_id = %s AND book_id = %s AND status = 'activo'`
is non-empty. -/
def has_active_loan (db : DB) (user_id book_id : Nat) : Bool :=
  db.loans.any (fun l =>
    l.user_id == user_id && l.book_id == book_id && l.status == LoanStatus.activo)

/-- The precondition sequence of `create_loan`, in source order: user
resolution, book existence, availability, active-loan limit, duplicate
loan.  Returns the resolved user id when every check passes. -/
def create_loan_checks (db : DB) (username : String) (book_id : Nat) :
    Except LoanError Nat :=
  match get_user_id_by_username db username with
  | none => Except.error LoanError.userNotFound
  | some uid =>
    match findBook db book_id with
    | none => Except.error LoanError.bookNotFound
    | some _ =>
      if !check_book_availability db book_id then
        Except.error LoanError.noAvailability
      else if MAX_LOANS_PER_USER ≤ count_active_loans db uid then
        Except.error LoanError.loanLimitExceeded
      else if has_active_loan db uid book_id then
        Except.error LoanError.duplicateLoan
      else Except.ok uid

/-- The loan row inserted by `create_loan`
(`INSERT INTO loans (user_id, book_id, due_date) VALUES ...` with the
table defaults `loan_date = NOW()`, `status = 'activo'`,
`return_date = NULL`, `has_review = FALSE`). -/
def mkLoan (uid book_id : Nat) (now : Int) (newId : Nat) : Loan :=
  { id := newId, user_id := uid, book_id := book_id, loan_date := now,
    due_date := now + LOAN_DURATION_DAYS, return_date := none,
    status := LoanStatus.activo, has_review := false }

/-- Embeds `UPDATE books SET available_copies = available_copies - 1
WHERE id = %s AND available_copies > 0`, applied to the book list. -/
def decrementBook (books : List Book) (book_id : Nat) : List Book :=
  books.map (fun b =>
    if b.id == book_id && decide (b.available_copies > 0) then
      { b with available_copies := b.available_copies - 1 }
    else b)

/-- The transaction body of `create_loan` on the database state current
when the transaction executes: insert the loan row, run the conditional
decrement, and commit both iff the decrement affected a row
(`cursor.rowcount > 0`); on zero rows the whole transaction is rolled
back (the returned database is the input) and the handler answers the
conflict error. -/
def loanTransaction (db : DB) (uid book_id : Nat) (now : Int) (newId : Nat) :
    Except LoanError Loan × DB :=
  if check_book_availability db book_id then
    (Except.ok (mkLoan uid book_id now newId),
     { db with loans := mkLoan uid book_id now newId :: db.loans,
               books := decrementBook db.books book_id })
  else
    (Except.error LoanError.conflict, db)

/-- Embeds `create_loan`: the precondition reads run against `dbCheck`; the
transaction then executes atomically against `dbWrite`, the state
current at write time (other requests may have committed in between —
`dbCheck = dbWrite` is the interleaving-free special case). -/
def create_loan (dbCheck dbWrite : DB) (username : String) (book_id : Nat)
    (now : Int) (newId : Nat) : Except LoanError Loan × DB :=
  match create_loan_checks dbCheck username book_id with
  | Except.error e => (Except.error e, dbWrite)
  | Except.ok uid => loanTransaction dbWrite uid book_id now newId

/-! ## Overdue refresh (`loans.py`, `update_overdue_loans`) -/

/-- The `WHERE` clause of the overdue update:
`status = 'activo' AND due_date < NOW() AND return_date IS NULL`. -/
def overdueLoanMatch (now : Int) (l : Loan) : Bool :=
  l.status == LoanStatus.activo && decide (l.due_date < now) && l.return_date == none

/-- Embeds `update_overdue_loans`: flips every matching loan to `vencido` and
returns 0 unconditionally — the source reads
`return 0  # rowcount no esta disponible en execute_query`. -/
def update_overdue_loans (now : Int) (db : DB) : Nat × DB :=
  (0,
   { db with loans := db.loans.map (fun l =>
       if overdueLoanMatch now l then { l with status := LoanStatus.vencido } else l) })

/-! ## Book return (`loans.py`, `return_book`) -/

/-- Outcome classes of `return_book`; `availabilityUpdateFailed` is the
zero-row conditional increment branch (rollback + HTTP 500,
"Error al actualizar disponibilidad del libro"). -/
inductive ReturnError where
  | userNotFound
  | loanNotFound
  | forbidden
  | alreadyReturned
  | availabilityUpdateFailed
deriving DecidableEq, Repr

/-- HTTP status returned by `return_book` for each error class. -/
def ReturnError.httpStatus : ReturnError → Nat
  | .userNotFound => 404
  | .loanNotFound => 404
  | .forbidden => 403
  | .alreadyReturned => 400
  | .availabilityUpdateFailed => 500

/-- The loan lookup of `return_book`:
`SELECT ... FROM loans l INNER JOIN books b ON l.book_id = b.id WHERE l.id = %s` —
because of the inner join the row only comes back when the loan's book
still exists. -/
def findLoanJoined (db : DB) (loan_id : Nat) : Option Loan :=
  match db.loans.find? (fun l => l.id == loan_id) with
  | none => none
  | some l => if db.books.any (fun b => b.id == l.book_id) then some l else none

/-- Embeds `UPDATE loans SET return_date = NOW(), status = 'devuelto' WHERE id = %s`. -/
def setLoanReturned (loans : List Loan) (loan_id : Nat) (now : Int) : List Loan :=
  loans.map (fun l =>
    if l.id == loan_id then
      { l with return_date := some now, status := LoanStatus.devuelto }
    else l)

/-- Embeds `UPDATE books SET available_copies = available_copies + 1
WHERE id = %s AND available_copies < total_copies`. -/
def incrementBookClamped (books : List Book) (book_id : Nat) : List Book :=
  books.map (fun b =>
    if b.id == book_id && decide (b.available_copies < b.total_copies) then
      { b with available_copies := b.available_copies + 1 }
    else b)

/-- Whether the conditional increment affects at least one row
(`cursor.rowcount > 0` after the second UPDATE). -/
def incrementRowcountPos (db : DB) (book_id : Nat) : Bool :=
  db.books.any (fun b =>
    b.id == book_id && decide (b.available_copies < b.total_copies))

/-- Embeds `return_book`: user resolution, joined loan lookup, ownership check
(admins may return any loan), already-returned check, then one
transaction holding the loan update and the conditional increment; the
transaction commits only when the increment affected a row, otherwise
both updates are rolled back and the handler answers HTTP 500. -/
def return_book (db : DB) (username : String) (role : Role) (loan_id : Nat)
    (now : Int) : Except ReturnError Unit × DB :=
  match get_user_id_by_username db username with
  | none => (Except.error ReturnError.userNotFound, db)
  | some uid =>
    match findLoanJoined db loan_id with
    | none => (Except.error ReturnError.loanNotFound, db)
    | some ld =>
      if role ≠ Role.admin ∧ ld.user_id ≠ uid then
        (Except.error ReturnError.forbidden, db)
      else if ld.status = LoanStatus.devuelto then
        (Except.error ReturnError.alreadyReturned, db)
      else if incrementRowcountPos db ld.book_id then
        (Except.ok (),
         { db with loans := setLoanReturned db.loans loan_id now,
                   books := incrementBookClamped db.books ld.book_id })
      else
        (Except.error ReturnError.availabilityUpdateFailed, db)

/-! ## Reviews (`reviews.py`) -/

/-- Outcome classes of the review endpoints.  `validationFailed` is the
pydantic 422 on `ReviewCreate` (rating outside 1..5 or comment over
1000 characters); the others correspond one-to-one to the
`HTTPException` sites of `create_review` / `delete_review`. -/
inductive ReviewError where
  | validationFailed
  | noUser
  | duplicateReview
  | notEligible
  | alreadyReviewed
  | reviewNotFound
  | reviewForbidden
deriving DecidableEq, Repr

/-- Embeds `SELECT id FROM reviews WHERE user_id = %s AND book_id = %s` is
non-empty. -/
def existsReviewFor (db : DB) (uid book_id : Nat) : Bool :=
  db.reviews.any (fun r => r.user_id == uid && r.book_id == book_id)

/-- The rows matched by
`SELECT ... FROM loans WHERE user_id = %s AND book_id = %s AND status = 'devuelto'`. -/
def devueltoLoansFor (db : DB) (uid book_id : Nat) : List Loan :=
  db.loans.filter (fun l =>
    l.user_id == uid && l.book_id == book_id && l.status == LoanStatus.devuelto)

/-- Comparator realizing `ORDER BY return_date DESC LIMIT 1`: keep the
row with the later `return_date` (`NULL` sorts last; on ties the order
among equal keys is unspecified in SQL — the model keeps the
earlier-scanned row). -/
def laterByReturnDate (a b : Loan) : Loan :=
  match a.return_date, b.return_date with
  | none, none => a
  | none, some _ => b
  | some _, none => a
  | some x, some y => if x < y then b else a

/-- One accumulation step of the `ORDER BY return_date DESC LIMIT 1`
scan. -/
def pickLater (acc : Option Loan) (l : Loan) : Option Loan :=
  match acc with
  | none => some l
  | some a => some (laterByReturnDate a l)

/-- The single row produced by the eligibility query of `create_review`:
the most recent `devuelto` loan of the (user, book) pair. -/
def mostRecentDevueltoLoan (db : DB) (uid book_id : Nat) : Option Loan :=
  (devueltoLoansFor db uid book_id).foldl pickLater none

/-- The review row inserted by `create_review`
(`INSERT INTO reviews (user_id, book_id, rating, comment) VALUES ...`,
`created_at` defaulting to `NOW()`). -/
def mkReview (rid uid book_id rating : Nat) (comment : Option String) (now : Int) :
    Review :=
  { id := rid, user_id := uid, book_id := book_id, rating := rating,
    comment := comment, created_at := now }

/-- Per-row effect of `UPDATE loans SET has_review = TRUE WHERE id = %s`. -/
def markIfLoan (loan_id : Nat) (l : Loan) : Loan :=
  if l.id == loan_id then { l with has_review := true } else l

/-- Embeds `UPDATE loans SET has_review = TRUE WHERE id = %s`. -/
def markLoanReviewed (loans : List Loan) (loan_id : Nat) : List Loan :=
  loans.map (markIfLoan loan_id)

/-- Embeds `create_review` handler: the precondition reads, then the review
insert and the `has_review` update, each issued through
`execute_query(..., fetch=False)` — two independently committed
statements, not one transaction.  The second component is the list of
committed database states in execution order (empty when a
precondition rejects the call before any write). -/
def create_review (db : DB) (username : String) (book_id rating : Nat)
    (comment : Option String) (now : Int) (rid : Nat) :
    Except ReviewError Review × List DB :=
  match get_user_id_by_username db username with
  | none => (Except.error ReviewError.noUser, [])
  | some uid =>
    if existsReviewFor db uid book_id then
      (Except.error ReviewError.duplicateReview, [])
    else
      match mostRecentDevueltoLoan db uid book_id with
      | none => (Except.error ReviewError.notEligible, [])
      | some ln =>
        if ln.has_review then
          (Except.error ReviewError.alreadyReviewed, [])
        else
          let r := mkReview rid uid book_id rating comment now
          let db1 := { db with reviews := r :: db.reviews }
          let db2 := { db1 with loans := markLoanReviewed db1.loans ln.id }
          (Except.ok r, [db1, db2])

/-- Embeds `POST /reviews`: pydantic validation of `ReviewCreate`
(`rating ∈ [1,5]`, comment at most 1000 characters) in front of the
`create_review` handler. -/
def reviews_post (db : DB) (username : String) (book_id rating : Nat)
    (comment : Option String) (now : Int) (rid : Nat) :
    Except ReviewError Review × List DB :=
  if !(1 ≤ rating && rating ≤ 5 &&
       (match comment with
        | none => true
        | some c => c.length ≤ 1000)) then
    (Except.error ReviewError.validationFailed, [])
  else
    create_review db username book_id rating comment now rid

/-- Embeds `delete_review`: lookup, ownership check
(`review.user_id != current_user_id and role != 'admin'`), then
`DELETE FROM reviews WHERE id = %s`.  Only the reviews table is
touched. -/
def delete_review (db : DB) (review_id : Nat) (username : String) (role : Role) :
    Except ReviewError Unit × DB :=
  match db.reviews.find? (fun r => r.id == review_id) with
  | none => (Except.error ReviewError.reviewNotFound, db)
  | some r =>
    if some r.user_id ≠ get_user_id_by_username db username ∧ role ≠ Role.admin then
      (Except.error ReviewError.reviewForbidden, db)
    else
      (Except.ok (), { db with reviews := db.reviews.filter (fun x => !(x.id == review_id)) })

/-! ## Catalog update (`books.py`, `update_book`; `models.py`, `BookUpdate`) -/

/-- Embeds `BookUpdate`: every field optional, validated independently by the
pydantic `Field` constraints. -/
structure BookUpdate where
  title : Option String
  author : Option String
  description : Option String
  category : Option String
  publication_year : Option Int
  total_copies : Option Nat
  available_copies : Option Nat
deriving DecidableEq, Repr

/-- The pydantic `Field` constraints of `BookUpdate`: title 1..255,
author 1..150, category at most 100, publication year 1000..2100,
`total_copies ≥ 1`, `available_copies ≥ 0`; no cross-field check. -/
def bookUpdateValid (u : BookUpdate) : Bool :=
  (match u.title with
   | none => true
   | some t => 1 ≤ t.length && t.length ≤ 255) &&
  (match u.author with
   | none => true
   | some a => 1 ≤ a.length && a.length ≤ 150) &&
  (match u.category with
   | none => true
   | some c => c.length ≤ 100) &&
  (match u.publication_year with
   | none => true
   | some y => decide (1000 ≤ y) && decide (y ≤ 2100)) &&
  (match u.total_copies with
   | none => true
   | some t => 1 ≤ t) &&
  true

/-- Was at least one updatable field provided (the handler rejects an
empty update with HTTP 400)? -/
def bookUpdateHasField (u : BookUpdate) : Bool :=
  u.title.isSome || u.author.isSome || u.description.isSome || u.category.isSome ||
    u.publication_year.isSome || u.total_copies.isSome || u.available_copies.isSome

/-- Apply the provided fields of a `BookUpdate` to a book row — the
dynamically built `UPDATE books SET ... WHERE id = %s`. -/
def applyBookUpdate (u : BookUpdate) (b : Book) : Book :=
  { b with
    title := u.title.getD b.title,
    author := u.author.getD b.author,
    description := (u.description.map some).getD b.description,
    category := (u.category.map some).getD b.category,
    publication_year := (u.publication_year.map some).getD b.publication_year,
    total_copies := u.total_copies.getD b.total_copies,
    available_copies := u.available_copies.getD b.available_copies }

/-- Outcome classes of `update_book`. -/
inductive BookError where
  | bookNotFound
  | noFields
deriving DecidableEq, Repr

/-- Embeds `update_book` handler: existence check, non-empty field list check,
then the dynamically built UPDATE followed by a re-read of the row.
No relation between `available_copies` and `total_copies` is ever
checked. -/
def update_book (db : DB) (book_id : Nat) (u : BookUpdate) :
    Except BookError Book × DB :=
  match findBook db book_id with
  | none => (Except.error BookError.bookNotFound, db)
  | some _ =>
    if !bookUpdateHasField u then
      (Except.error BookError.noFields, db)
    else
      let db' := { db with books := db.books.map (fun b =>
        if b.id == book_id then applyBookUpdate u b else b) }
      (match findBook db' book_id with
       | some b => Except.ok b
       | none => Except.error BookError.bookNotFound, db')

/-- Invariant I1 over a database: `available_copies ≤ total_copies` for
every book. -/
def invariantI1 (db : DB) : Bool :=
  db.books.all (fun b => b.available_copies ≤ b.total_copies)

/-! ## Catalog create path (`models.py` `BookCreate`, `books.py` `create_book`) -/

/-- Raw request body for `POST /books` before pydantic validation. -/
structure BookCreatePayload where
  title : String
  author : String
  isbn : String
  google_books_id : Option String
  description : Option String
  category : Option String
  publication_year : Option Int
  cover_url : Option String
  total_pages : Option Nat
  total_copies : Nat
  available_copies : Nat
deriving DecidableEq, Repr

/-- Pydantic parsing of `BookCreate`: the `Field` constraints of
`BookBase`/`BookCreate` in declaration order, the `validate_isbn`
validator (which stores the normalized ISBN back into the model), and
the `validate_available_copies` cross-check
(`available_copies ≤ total_copies`).  A failure rejects the request
before the route handler runs. -/
def parseBookCreate (p : BookCreatePayload) : Except String BookCreatePayload :=
  if !(1 ≤ p.title.length && p.title.length ≤ 255) then
    Except.error "title fuera de rango"
  else if !(1 ≤ p.author.length && p.author.length ≤ 150) then
    Except.error "author fuera de rango"
  else if !(10 ≤ p.isbn.length && p.isbn.length ≤ 20) then
    Except.error "isbn fuera de rango"
  else
    match validate_isbn p.isbn with
    | Except.error m => Except.error m
    | Except.ok normalized =>
      if !((match p.google_books_id with
            | none => true
            | some g => g.length ≤ 50) &&
           (match p.category with
            | none => true
            | some c => c.length ≤ 100) &&
           (match p.publication_year with
            | none => true
            | some y => decide (1000 ≤ y) && decide (y ≤ 2100))) then
        Except.error "campo opcional fuera de rango"
      else if !(1 ≤ p.total_copies) then
        Except.error "total_copies debe ser al menos 1"
      else if p.total_copies < p.available_copies then
        Except.error "Las copias disponibles no pueden exceder el total"
      else Except.ok { p with isbn := String.mk normalized }

/-! ## Bulk import (`bulk_upload.py`) -/

/-- Typed content of one spreadsheet row after `extract_book_data`
(the pandas coercions themselves are outside the embedding boundary). -/
structure BookRowData where
  title : String
  author : String
  isbn : String
  description : Option String
  category : Option String
  publication_year : Option Int
  total_copies : Nat
  available_copies : Nat
  cover_url : Option String
deriving DecidableEq, Repr

/-- Best-effort metadata returned by the Google Books collaborator
(`search_book_by_isbn`), modelled as data supplied by an oracle
parameter. -/
structure GoogleMeta where
  description : Option String
  category : Option String
  publication_year : Option Int
  cover_url : Option String
deriving DecidableEq, Repr

/-- Python truthiness of an optional string: `None` and `''` are falsy. -/
def optStrFalsy : Option String → Bool
  | none => true
  | some s => s == ""

/-- Python truthiness of an optional integer: `None` and `0` are falsy. -/
def optIntFalsy : Option Int → Bool
  | none => true
  | some y => y == 0

/-- Embeds `if not book_data.get(key) and google_data.get(key): book_data[key] = google_data[key]`. -/
def fillStr (loc g : Option String) : Option String :=
  if optStrFalsy loc && !optStrFalsy g then g else loc

/-- Integer variant of the blank-filling rule. -/
def fillInt (loc g : Option Int) : Option Int :=
  if optIntFalsy loc && !optIntFalsy g then g else loc

/-- Embeds `enrich_book_with_google_data`: fill the blank
description/category/publication_year/cover_url fields from the
collaborator's answer. -/
def enrichRow (r : BookRowData) (g : GoogleMeta) : BookRowData :=
  { r with
    description := fillStr r.description g.description,
    category := fillStr r.category g.category,
    publication_year := fillInt r.publication_year g.publication_year,
    cover_url := fillStr r.cover_url g.cover_url }

/-- Embeds `SELECT id FROM books WHERE isbn = %s` is non-empty. -/
def bookExistsIsbn (db : DB) (isbn : String) : Bool :=
  db.books.any (fun b => b.isbn == isbn)

/-- Embeds `insert_book_to_database`: the bulk INSERT (note: it stores the raw
row ISBN, not a normalized form). -/
def insertBulkBook (db : DB) (r : BookRowData) (newId : Nat) : DB :=
  { db with books := db.books ++
      [{ id := newId, title := r.title, author := r.author, isbn := r.isbn,
         description := r.description, category := r.category,
         publication_year := r.publication_year,
         total_copies := r.total_copies, available_copies := r.available_copies,
         cover_url := r.cover_url }] }

/-- The `results` dictionary accumulated by `process_dataframe`:
`success`/`enriched` entries are `(row, isbn, title)`, `skipped`
entries are `(row, isbn?, reason)`. -/
structure BulkResults where
  success : List (Nat × String × String)
  errors : List (Nat × String × String)
  skipped : List (Nat × Option String × String)
  enriched : List (Nat × String × String)
deriving DecidableEq, Repr

/-- Embeds `process_dataframe`: walk the rows in order; each row is either
skipped (incomplete data, invalid ISBN-13, duplicate ISBN) with a
recorded reason, or inserted (after optional enrichment).  `idx` is the
zero-based row index (reported as `idx + 2` to account for the header
row), `nid` the next fresh book id. -/
def process_dataframe (google : String → Option GoogleMeta) (enrich_with_google : Bool) :
    List BookRowData → Nat → Nat → DB → BulkResults → BulkResults × DB
  | [], _, _, db, acc => (acc, db)
  | r :: rest, idx, nid, db, acc =>
    if r.title == "" || r.author == "" || r.isbn == "" then
      process_dataframe google enrich_with_google rest (idx + 1) nid db
        { acc with skipped := acc.skipped ++
            [(idx + 2, none, "Datos incompletos (titulo, autor o ISBN faltante)")] }
    else if !is_valid_isbn13 r.isbn then
      process_dataframe google enrich_with_google rest (idx + 1) nid db
        { acc with skipped := acc.skipped ++ [(idx + 2, some r.isbn, "ISBN-13 invalido")] }
    else if bookExistsIsbn db r.isbn then
      process_dataframe google enrich_with_google rest (idx + 1) nid db
        { acc with skipped := acc.skipped ++ [(idx + 2, some r.isbn, "ISBN ya existente")] }
    else
      let step :=
        if enrich_with_google then
          match google r.isbn with
          | some g =>
            (enrichRow r g,
             { acc with enriched := acc.enriched ++ [(idx + 2, r.isbn, r.title)] })
          | none => (r, acc)
        else (r, acc)
      process_dataframe google enrich_with_google rest (idx + 1) (nid + 1)
        (insertBulkBook db step.1 nid)
        { step.2 with success := step.2.success ++ [(idx + 2, r.isbn, r.title)] }

/-! ## Supporting lemmas -/

/-- Sum of an enumerated map equals the indexed recursive weighted sum. -/
lemma enumFrom_map_wsum (w : Nat → Char → Nat) :
    ∀ (l : List Char) (i : Nat),
      ((List.enumFrom i l).map (fun p => w p.1 p.2)).sum = wSum w i l
  | [], _ => by simp [wSum]
  | c :: rest, i => by
    simp [List.enumFrom, wSum, enumFrom_map_wsum w rest (i + 1)]

/-- Source-form ISBN-10 checksum as the spec-form indexed sum. -/
lemma isbn10CodeSum_eq (l : List Char) :
    isbn10CodeSum l = wSum (fun i c => (10 - i) * charValX c) 0 l := by
  simpa [isbn10CodeSum, List.enum] using
    enumFrom_map_wsum (fun i c => (10 - i) * charValX c) l 0

/-- Source-form ISBN-13 checksum as the spec-form indexed sum. -/
lemma isbn13CodeSum_eq (l : List Char) :
    isbn13CodeSum l =
      wSum (fun i c => digitVal c * (if i % 2 == 0 then 1 else 3)) 0 l.dropLast := by
  simpa [isbn13CodeSum, List.enum] using
    enumFrom_map_wsum (fun i c => digitVal c * (if i % 2 == 0 then 1 else 3)) l.dropLast 0

/-- Acceptance of the catalog validator on a cleaned candidate matches
the disjunction of the two spec checksum formulas. -/
lemma isbnOk_clean_eq (l : List Char) :
    (match validate_isbn_clean l with
     | Except.ok _ => true
     | Except.error _ => false) = (isbn10Spec l || isbn13Spec l) := by
  rw [isbn10Spec, isbn13Spec, ← isbn10CodeSum_eq, ← isbn13CodeSum_eq]
  unfold validate_isbn_clean
  cases h10 : (l.length == 10) with
  | true =>
    have h13 : (l.length == 13) = false := by
      rw [beq_iff_eq] at h10
      rw [beq_eq_false_iff_ne]
      omega
    rw [h13]
    cases hf : isbn10FormatOk l with
    | false => rfl
    | true =>
      cases hc : (isbn10CodeSum l % 11 == 0) with
      | false => rfl
      | true => rfl
  | false =>
    have hfmt : isbn10FormatOk l = false := by
      rw [isbn10FormatOk, h10]
      rfl
    rw [hfmt]
    cases h13 : (l.length == 13) with
    | false => rfl
    | true =>
      cases hd : l.all Char.isDigit with
      | false => rfl
      | true =>
        cases hc : ((10 - isbn13CodeSum l % 10) % 10 == digitVal (l.getLast?.getD '0')) with
        | false => rfl
        | true => rfl

/-- Characters an ISBN candidate may use in the cross-path comparison:
decimal digits and hyphens. -/
def isbnCandidateChar (c : Char) : Bool :=
  ['0', '1', '2', '3', '4', '5', '6', '7', '8', '9', '-'].contains c

/-- Digit-or-hyphen characters are untouched by uppercasing, are not
whitespace, are not spaces, and are digits when not a hyphen. -/
lemma isbnCandidateChar_facts (c : Char) (h : isbnCandidateChar c = true) :
    c.toUpper = c ∧ c.isWhitespace = false ∧ (c == ' ') = false ∧
      (!(c == '-') → c.isDigit = true) := by
  have h' : c = '0' ∨ c = '1' ∨ c = '2' ∨ c = '3' ∨ c = '4' ∨ c = '5' ∨ c = '6' ∨
      c = '7' ∨ c = '8' ∨ c = '9' ∨ c = '-' := by
    simpa [isbnCandidateChar] using h
  rcases h' with rfl | rfl | rfl | rfl | rfl | rfl | rfl | rfl | rfl | rfl | rfl <;> decide

/-- Lists with no element satisfying the predicate survive `dropWhile`. -/
lemma dropWhile_of_all_false (p : Char → Bool) :
    ∀ l : List Char, (∀ c ∈ l, p c = false) → l.dropWhile p = l
  | [], _ => rfl
  | c :: rest, h => by
    have hc : p c = false := h c (List.mem_cons_self c rest)
    simp [List.dropWhile, hc]

/-- Stripping a whitespace-free list is the identity. -/
lemma pyStrip_of_no_whitespace (l : List Char) (h : ∀ c ∈ l, c.isWhitespace = false) :
    pyStrip l = l := by
  unfold pyStrip
  rw [dropWhile_of_all_false _ l h]
  rw [dropWhile_of_all_false _ l.reverse (fun c hc => h c (List.mem_reverse.mp hc))]
  exact List.reverse_reverse l

/-- On digit-or-hyphen candidates the bulk-import cleaning keeps exactly
the non-hyphen characters. -/
lemma bulkClean_of_candidate (s : String) (h : s.data.all isbnCandidateChar = true) :
    bulkClean s = s.data.filter (fun c => !(c == '-')) := by
  unfold bulkClean
  apply pyStrip_of_no_whitespace
  intro c hc
  have hmem := List.mem_of_mem_filter hc
  have := isbnCandidateChar_facts c (by
    rw [List.all_eq_true] at h
    exact h c hmem)
  exact this.2.1

/-- On digit-or-hyphen candidates the catalog cleaning keeps exactly the
non-hyphen characters. -/
lemma isbnClean_of_candidate (s : String) (h : s.data.all isbnCandidateChar = true) :
    isbnClean s = s.data.filter (fun c => !(c == '-')) := by
  unfold isbnClean
  rw [List.all_eq_true] at h
  have hfilter : s.data.filter (fun c => !(c == '-') && !(c == ' ')) =
      s.data.filter (fun c => !(c == '-')) := by
    apply List.filter_congr
    intro c hc
    have := (isbnCandidateChar_facts c (h c hc)).2.2.1
    simp [this]
  rw [hfilter]
  have : ∀ c ∈ s.data.filter (fun c => !(c == '-')), c.toUpper = c := by
    intro c hc
    exact (isbnCandidateChar_facts c (h c (List.mem_of_mem_filter hc))).1
  calc (s.data.filter (fun c => !(c == '-'))).map Char.toUpper
      = (s.data.filter (fun c => !(c == '-'))).map id := List.map_congr_left this
    _ = s.data.filter (fun c => !(c == '-')) := List.map_id _

/-- Dropping the hyphens of a digit-or-hyphen candidate leaves digits. -/
lemma filtered_all_digits (s : String) (h : s.data.all isbnCandidateChar = true) :
    (s.data.filter (fun c => !(c == '-'))).all Char.isDigit = true := by
  rw [List.all_eq_true] at h ⊢
  intro c hc
  have hkeep := List.of_mem_filter hc
  exact (isbnCandidateChar_facts c (h c (List.mem_of_mem_filter hc))).2.2.2 hkeep

/-- The bulk importer's weighted sum equals the catalog validator's. -/
lemma bulk_weight_sum_eq (l : List Char) :
    (l.dropLast.enum.map
      (fun p => if p.1 % 2 == 0 then digitVal p.2 else digitVal p.2 * 3)).sum =
      isbn13CodeSum l := by
  unfold isbn13CodeSum
  congr 1
  apply List.map_congr_left
  intro p _
  by_cases hb : (p.1 % 2 == 0) = true <;> simp [hb]

/-- Marking a loan does not change its return date. -/
lemma markIfLoan_return_date (lid : Nat) (l : Loan) :
    (markIfLoan lid l).return_date = l.return_date := by
  unfold markIfLoan
  split <;> rfl

/-- The recency comparator commutes with marking. -/
lemma laterByReturnDate_mark (lid : Nat) (a b : Loan) :
    laterByReturnDate (markIfLoan lid a) (markIfLoan lid b) =
      markIfLoan lid (laterByReturnDate a b) := by
  unfold laterByReturnDate
  rw [markIfLoan_return_date, markIfLoan_return_date]
  cases a.return_date <;> cases b.return_date <;> repeat' split
  all_goals rfl

/-- The recency fold commutes with marking. -/
lemma foldl_pickLater_mark (lid : Nat) :
    ∀ (l : List Loan) (acc : Option Loan),
      (l.map (markIfLoan lid)).foldl pickLater (acc.map (markIfLoan lid)) =
        (l.foldl pickLater acc).map (markIfLoan lid)
  | [], _ => rfl
  | x :: rest, acc => by
    have hstep : pickLater (acc.map (markIfLoan lid)) (markIfLoan lid x) =
        (pickLater acc x).map (markIfLoan lid) := by
      cases acc with
      | none => rfl
      | some a => simp [pickLater, laterByReturnDate_mark]
    simp only [List.map_cons, List.foldl_cons, hstep]
    exact foldl_pickLater_mark lid rest (pickLater acc x)

/-- The most-recent-devuelto lookup after the `has_review` update sees
the marked version of the loan it would have seen before. -/
lemma mostRecentDevuelto_markLoan (db db' : DB) (lid uid bid : Nat)
    (h : db'.loans = markLoanReviewed db.loans lid) :
    mostRecentDevueltoLoan db' uid bid =
      (mostRecentDevueltoLoan db uid bid).map (markIfLoan lid) := by
  unfold mostRecentDevueltoLoan devueltoLoansFor
  rw [h, markLoanReviewed, List.filter_map]
  have hq : db.loans.filter
        ((fun l => l.user_id == uid && l.book_id == bid && l.status == LoanStatus.devuelto) ∘
          markIfLoan lid) =
      db.loans.filter
        (fun l => l.user_id == uid && l.book_id == bid && l.status == LoanStatus.devuelto) := by
    apply List.filter_congr
    intro l _
    show ((fun l => l.user_id == uid && l.book_id == bid && l.status == LoanStatus.devuelto)
      (markIfLoan lid l)) = _
    unfold markIfLoan
    split <;> rfl
  rw [hq]
  exact foldl_pickLater_mark lid _ none

/-- A predicate with no witness in a list has none in a sublist obtained
by filtering. -/
lemma any_filter_false {α : Type} (p q : α → Bool) :
    ∀ l : List α, l.any p = false → (l.filter q).any p = false
  | [], _ => rfl
  | x :: rest, h => by
    simp only [List.any_cons, Bool.or_eq_false_iff] at h
    obtain ⟨hx, hrest⟩ := h
    simp only [List.filter_cons]
    split
    · simp only [List.any_cons, hx, Bool.false_or]
      exact any_filter_false p q rest hrest
    · exact any_filter_false p q rest hrest

/-! ## Concrete states used by witnesses and counterexamples -/

/-- A regular user. -/
def exUser : User := { id := 1, username := "u", role := Role.usuario }

/-- A book with its single copy on the shelf. -/
def exBookAvail : Book :=
  { id := 1, title := "t", author := "a", isbn := "9780306406157",
    description := none, category := none, publication_year := none,
    total_copies := 1, available_copies := 1, cover_url := none }

/-- The same book with no copy available. -/
def exBookEmpty : Book := { exBookAvail with available_copies := 0 }

/-- An outstanding loan of book 1 by user 1. -/
def exLoanActivo : Loan :=
  { id := 1, user_id := 1, book_id := 1, loan_date := 0, due_date := 14,
    return_date := none, status := LoanStatus.activo, has_review := false }

/-- A completed (devuelto) loan of book 1 by user 1, not yet reviewed. -/
def exLoanDevuelto : Loan :=
  { id := 1, user_id := 1, book_id := 1, loan_date := 0, due_date := 14,
    return_date := some 2, status := LoanStatus.devuelto, has_review := false }

/-- State seen by the borrow preconditions: copy available. -/
def dbLoanCheckEx : DB :=
  { users := [exUser], books := [exBookAvail], loans := [], reviews := [] }

/-- State at write time after a concurrent borrower took the last copy. -/
def dbLoanRaceEx : DB :=
  { users := [exUser], books := [exBookEmpty], loans := [], reviews := [] }

/-- Empty store. -/
def dbNoUser : DB := { users := [], books := [], loans := [], reviews := [] }

/-- Store with the user but no book. -/
def dbNoBook : DB := { users := [exUser], books := [], loans := [], reviews := [] }

/-- Store with the book out of copies. -/
def dbNoAvail : DB :=
  { users := [exUser], books := [exBookEmpty], loans := [], reviews := [] }

/-- Store where user 1 already holds three activo loans. -/
def dbAtLimit : DB :=
  { users := [exUser], books := [exBookAvail],
    loans := [{ exLoanActivo with id := 11, book_id := 2 },
              { exLoanActivo with id := 12, book_id := 3 },
              { exLoanActivo with id := 13, book_id := 4 }],
    reviews := [] }

/-- Store where user 1 already borrowed book 1. -/
def dbDupLoan : DB :=
  { users := [exUser], books := [exBookAvail], loans := [exLoanActivo], reviews := [] }

/-- Store with an activo loan while the book already shows every copy on
the shelf (`available_copies = total_copies`), the state in which the
conditional increment of a return affects zero rows. -/
def dbReturnEx : DB :=
  { users := [exUser], books := [exBookAvail], loans := [exLoanActivo], reviews := [] }

/-- Store where user 1 is eligible to review book 1. -/
def dbReviewEx : DB :=
  { users := [exUser], books := [exBookAvail], loans := [exLoanDevuelto], reviews := [] }

/-- Store with one overdue activo loan at time 5. -/
def dbOverdueEx : DB :=
  { users := [exUser], books := [exBookAvail],
    loans := [{ exLoanActivo with due_date := 1 }], reviews := [] }

/-- Store with one book satisfying invariant I1 (2 of 2 copies). -/
def dbC10 : DB :=
  { users := [],
    books := [{ id := 1, title := "t", author := "a", isbn := "9780306406157",
                description := none, category := none, publication_year := none,
                total_copies := 2, available_copies := 2, cover_url := none }],
    loans := [], reviews := [] }

/-- A partial update that only raises `available_copies` to 5. -/
def updC10 : BookUpdate :=
  { title := none, author := none, description := none, category := none,
    publication_year := none, total_copies := none, available_copies := some 5 }

/-- Empty bulk-import accumulator. -/
def emptyBulkResults : BulkResults :=
  { success := [], errors := [], skipped := [], enriched := [] }

/-- A spreadsheet row carrying a valid ISBN-10 (rejected by the
bulk-import validator, accepted by the catalog one). -/
def rowIsbn10 : BookRowData :=
  { title := "t", author := "a", isbn := "0306406152", description := none,
    category := none, publication_year := none, total_copies := 1,
    available_copies := 1, cover_url := none }

/-- A catalog-create request with an ISBN failing the checksum. -/
def payloadBadIsbn : BookCreatePayload :=
  { title := "t", author := "a", isbn := "0306406153", google_books_id := none,
    description := none, category := none, publication_year := none,
    cover_url := none, total_pages := none, total_copies := 1, available_copies := 1 }

/-- A catalog-create request with more available than total copies. -/
def payloadBadCopies : BookCreatePayload :=
  { title := "t", author := "a", isbn := "9780306406157", google_books_id := none,
    description := none, category := none, publication_year := none,
    cover_url := none, total_pages := none, total_copies := 1, available_copies := 2 }

/-! ## Claim theorems -/

/-- Claim C1: once the borrow preconditions have passed (against the
state read at check time), the loan insertion and the conditional
decrement form one transaction against the state current at write time:
if the decrement guarded by `available_copies > 0` affects zero rows the
whole transaction rolls back (no loan row persists, the book table is
unchanged) and the call fails with the conflict-class error; otherwise
both writes commit together. -/
theorem create_loan_single_transaction
    (dbCheck dbWrite : DB) (username : String) (book_id : Nat) (now : Int)
    (newId uid : Nat)
    (hchecks : create_loan_checks dbCheck username book_id = Except.ok uid) :
    (check_book_availability dbWrite book_id = false →
      create_loan dbCheck dbWrite username book_id now newId =
        (Except.error LoanError.conflict, dbWrite))
    ∧ (check_book_availability dbWrite book_id = true →
      create_loan dbCheck dbWrite username book_id now newId =
        (Except.ok (mkLoan uid book_id now newId),
         { dbWrite with loans := mkLoan uid book_id now newId :: dbWrite.loans,
                        books := decrementBook dbWrite.books book_id })) := by
  unfold create_loan
  rw [hchecks]
  constructor <;> intro hv <;> simp [loanTransaction, hv]

/-- Witness for C1: with the last copy gone at write time the borrow
rolls back and fails with the conflict error; with the copy still there
both writes commit. -/
theorem create_loan_single_transaction_witness :
    create_loan dbLoanCheckEx dbLoanRaceEx "u" 1 0 9 =
      (Except.error LoanError.conflict, dbLoanRaceEx)
    ∧ create_loan dbLoanCheckEx dbLoanCheckEx "u" 1 0 9 =
      (Except.ok (mkLoan 1 1 0 9),
       { dbLoanCheckEx with loans := mkLoan 1 1 0 9 :: dbLoanCheckEx.loans,
                            books := decrementBook dbLoanCheckEx.books 1 }) :=
  ⟨(create_loan_single_transaction dbLoanCheckEx dbLoanRaceEx "u" 1 0 9 1 rfl).1
      (by decide),
   (create_loan_single_transaction dbLoanCheckEx dbLoanCheckEx "u" 1 0 9 1 rfl).2
      (by decide)⟩

/-- Claim C2 (code bug evidence): in a state where the loan is activo
and owned by the caller but the book already shows
`available_copies = total_copies`, the conditional increment affects
zero rows and `return_book` rolls the whole transaction back and
answers HTTP 500 — the status change to devuelto is NOT committed,
contrary to the spec's required commit-with-`ConsistencyWarning`
behavior. -/
theorem return_book_zero_row_increment_rolls_back :
    (∃ l, findLoanJoined dbReturnEx 1 = some l ∧ l.user_id = 1 ∧
      l.status = LoanStatus.activo)
    ∧ (∃ b, findBook dbReturnEx 1 = some b ∧ b.available_copies = b.total_copies)
    ∧ invariantI1 dbReturnEx = true
    ∧ return_book dbReturnEx "u" Role.usuario 1 5 =
        (Except.error ReturnError.availabilityUpdateFailed, dbReturnEx)
    ∧ ReturnError.httpStatus ReturnError.availabilityUpdateFailed = 500 :=
  ⟨⟨exLoanActivo, by decide, rfl, rfl⟩, ⟨exBookAvail, by decide, rfl⟩,
   by decide, rfl, rfl⟩

/-- Claim C3: the borrow preconditions are checked in source order —
user resolution, book existence, availability, the three-loan limit,
duplicate loan — and each failure is a hard rejection returning the
corresponding error with the database unchanged. -/
theorem create_loan_precondition_order
    (db : DB) (username : String) (book_id : Nat) (now : Int) (newId : Nat) :
    (get_user_id_by_username db username = none →
      create_loan db db username book_id now newId =
        (Except.error LoanError.userNotFound, db))
    ∧ (∀ uid, get_user_id_by_username db username = some uid →
        (findBook db book_id = none →
          create_loan db db username book_id now newId =
            (Except.error LoanError.bookNotFound, db))
        ∧ (∀ b, findBook db book_id = some b →
            check_book_availability db book_id = false →
            create_loan db db username book_id now newId =
              (Except.error LoanError.noAvailability, db))
        ∧ (check_book_availability db book_id = true →
            MAX_LOANS_PER_USER ≤ count_active_loans db uid →
            create_loan db db username book_id now newId =
              (Except.error LoanError.loanLimitExceeded, db))
        ∧ (check_book_availability db book_id = true →
            count_active_loans db uid < MAX_LOANS_PER_USER →
            has_active_loan db uid book_id = true →
            create_loan db db username book_id now newId =
              (Except.error LoanError.duplicateLoan, db))) := by
  constructor
  · intro h
    simp [create_loan, create_loan_checks, h]
  · intro uid huid
    refine ⟨?_, ?_, ?_, ?_⟩
    · intro hb
      simp [create_loan, create_loan_checks, huid, hb]
    · intro b hb hv
      simp [create_loan, create_loan_checks, huid, hb, hv]
    · intro hv hlim
      cases hfb : findBook db book_id with
      | none =>
        rw [check_book_availability, hfb] at hv
        cases hv
      | some b =>
        simp [create_loan, create_loan_checks, huid, hfb, hv, hlim]
    · intro hv hlt hdup
      cases hfb : findBook db book_id with
      | none =>
        rw [check_book_availability, hfb] at hv
        cases hv
      | some b =>
        have hnl : ¬ MAX_LOANS_PER_USER ≤ count_active_loans db uid := by omega
        simp [create_loan, create_loan_checks, huid, hfb, hv, hnl, hdup]

/-- Witness for C3: each of the five rejection branches at a concrete
store, in particular a user with 3 activo loans attempting a 4th borrow
is refused with the limit error and no state change. -/
theorem create_loan_precondition_order_witness :
    create_loan dbNoUser dbNoUser "u" 1 0 9 = (Except.error LoanError.userNotFound, dbNoUser)
    ∧ create_loan dbNoBook dbNoBook "u" 1 0 9 = (Except.error LoanError.bookNotFound, dbNoBook)
    ∧ create_loan dbNoAvail dbNoAvail "u" 1 0 9 =
        (Except.error LoanError.noAvailability, dbNoAvail)
    ∧ create_loan dbAtLimit dbAtLimit "u" 1 0 9 =
        (Except.error LoanError.loanLimitExceeded, dbAtLimit)
    ∧ create_loan dbDupLoan dbDupLoan "u" 1 0 9 =
        (Except.error LoanError.duplicateLoan, dbDupLoan) :=
  ⟨(create_loan_precondition_order dbNoUser "u" 1 0 9).1 (by decide),
   ((create_loan_precondition_order dbNoBook "u" 1 0 9).2 1 (by decide)).1 (by decide),
   (((create_loan_precondition_order dbNoAvail "u" 1 0 9).2 1 (by decide)).2.1 exBookEmpty
      (by decide) (by decide)),
   (((create_loan_precondition_order dbAtLimit "u" 1 0 9).2 1 (by decide)).2.2.1 (by decide)
      (by decide)),
   (((create_loan_precondition_order dbDupLoan "u" 1 0 9).2 1 (by decide)).2.2.2 (by decide)
      (by decide) (by decide))⟩

/-- Claim C4 (code bug evidence): a successful review creation commits
the review insert and the `has_review` flag update as two separate
statements; the trace of committed states contains an intermediate
state in which the review is already inserted while the eligible loan
still has `has_review = false` — the two writes are not one atomic
unit. -/
theorem create_review_intermediate_state :
    ∃ r d1 d2, reviews_post dbReviewEx "u" 1 5 none 10 7 = (Except.ok r, [d1, d2])
    ∧ existsReviewFor d1 1 1 = true
    ∧ (∃ l ∈ d1.loans, l.id = 1 ∧ l.has_review = false)
    ∧ (∃ l ∈ d2.loans, l.id = 1 ∧ l.has_review = true)
    ∧ d1 ≠ d2 := by
  refine ⟨_, _, _, rfl, by decide, ?_, ?_, by decide⟩
  · exact ⟨exLoanDevuelto, by decide, rfl, rfl⟩
  · exact ⟨{ exLoanDevuelto with has_review := true }, by decide, rfl, rfl⟩

/-- Claim C5: the ISBN validator accepts a candidate exactly when its
cleaned form satisfies the ISBN-10 rule (9 digits plus digit-or-X with
Σ((10−i)·digitᵢ) ≡ 0 mod 11) or the ISBN-13 rule (13 digits with the
alternating-weight check digit), rejecting everything else; and the
four concrete checksum examples behave as stated. -/
theorem isbn_validator_characterization :
    (∀ s : String, isbnOk s = (isbn10Spec (isbnClean s) || isbn13Spec (isbnClean s)))
    ∧ isbnOk "0306406152" = true ∧ isbnOk "0306406153" = false
    ∧ isbnOk "9780306406157" = true ∧ isbnOk "9780306406150" = false :=
  ⟨fun s => isbnOk_clean_eq (isbnClean s), by decide, by decide, by decide, by decide⟩

/-- Claim C6 counterexample: the two ISBN validation paths are not
identical — the valid ISBN-10 `0306406152` is accepted by the catalog
validator and rejected (skipped) by the bulk importer's
`is_valid_isbn13`. -/
theorem isbn_paths_differ_on_isbn10 :
    isbnOk "0306406152" = true ∧ is_valid_isbn13 "0306406152" = false := by
  decide

/-- Claim C6 (amended): on 13-digit candidates written with digits and
hyphens the two paths accept exactly the same ISBNs; the bulk importer
reacts to a validation failure by recording the row as skipped and
continuing with the remaining rows and the same database, while
interactive catalog creation rejects the request at the model
boundary. -/
theorem isbn_paths_agree_on_isbn13 :
    (∀ s : String, s.data.all isbnCandidateChar = true →
        (isbnClean s).length = 13 →
        is_valid_isbn13 s = isbnOk s)
    ∧ (∀ (google : String → Option GoogleMeta) (ew : Bool) (rest : List BookRowData)
        (idx nid : Nat) (db : DB) (acc : BulkResults) (r : BookRowData),
        (r.title == "" || r.author == "" || r.isbn == "") = false →
        is_valid_isbn13 r.isbn = false →
        process_dataframe google ew (r :: rest) idx nid db acc =
          process_dataframe google ew rest (idx + 1) nid db
            { acc with skipped := acc.skipped ++ [(idx + 2, some r.isbn, "ISBN-13 invalido")] })
    ∧ (∀ p : BookCreatePayload, isbnOk p.isbn = false →
        ∃ m, parseBookCreate p = Except.error m) := by
  refine ⟨?_, ?_, ?_⟩
  · intro s hcand hlen
    have hd := bulkClean_of_candidate s hcand
    have hcl := isbnClean_of_candidate s hcand
    rw [hcl] at hlen
    have hdig := filtered_all_digits s hcand
    have hlen13 : ((s.data.filter (fun c => !(c == '-'))).length == 13) = true :=
      beq_iff_eq.mpr hlen
    have hlen10 : ((s.data.filter (fun c => !(c == '-'))).length == 10) = false := by
      rw [hlen]
      rfl
    have hne : decide ((s.data.filter (fun c => !(c == '-'))) ≠ []) = true := by
      rw [decide_eq_true_eq]
      intro h0
      rw [h0] at hlen
      cases hlen
    simp only [is_valid_isbn13, isbnOk, validate_isbn, validate_isbn_clean, hd, hcl,
      hdig, hlen13, hlen10, hne, bulk_weight_sum_eq]
    cases hchk : ((10 - isbn13CodeSum (s.data.filter (fun c => !(c == '-'))) % 10) % 10 ==
        digitVal ((s.data.filter (fun c => !(c == '-'))).getLast?.getD '0')) with
    | false => simp [hchk]
    | true => simp [hchk]
  · intro google ew rest idx nid db acc r h1 h2
    simp [process_dataframe, h1, h2]
  · intro p hbad
    unfold parseBookCreate
    repeat' split
    all_goals first
      | exact ⟨_, rfl⟩
      | simp_all [isbnOk]

/-- Witness for the amended C6: a hyphenated ISBN-13 on which both
validators agree, a concrete bad-ISBN row that is skipped while the
walk continues, and a concrete bad-ISBN request that is rejected. -/
theorem isbn_paths_agree_on_isbn13_witness :
    is_valid_isbn13 "978-0306406157" = isbnOk "978-0306406157"
    ∧ process_dataframe (fun _ => none) false [rowIsbn10] 0 1 dbNoUser emptyBulkResults =
        process_dataframe (fun _ => none) false [] 1 1 dbNoUser
          { emptyBulkResults with skipped := emptyBulkResults.skipped ++
              [(2, some rowIsbn10.isbn, "ISBN-13 invalido")] }
    ∧ ∃ m, parseBookCreate payloadBadIsbn = Except.error m :=
  ⟨isbn_paths_agree_on_isbn13.1 "978-0306406157" (by decide) (by decide),
   isbn_paths_agree_on_isbn13.2.1 (fun _ => none) false [] 0 1 dbNoUser emptyBulkResults
     rowIsbn10 (by decide) (by decide),
   isbn_paths_agree_on_isbn13.2.2 payloadBadIsbn (by decide)⟩

/-- Claim C7: the overdue refresh is idempotent — running it twice at
the same time yields the same loans table as running it once. -/
theorem update_overdue_loans_idempotent (now : Int) (db : DB) :
    (update_overdue_loans now (update_overdue_loans now db).2).2 =
      (update_overdue_loans now db).2 := by
  simp only [update_overdue_loans, List.map_map]
  congr 1
  apply List.map_congr_left
  intro l _
  show (fun l => if overdueLoanMatch now l then { l with status := LoanStatus.vencido } else l)
      (if overdueLoanMatch now l then { l with status := LoanStatus.vencido } else l) =
      if overdueLoanMatch now l then { l with status := LoanStatus.vencido } else l
  by_cases h : overdueLoanMatch now l = true
  · have h2 : overdueLoanMatch now { l with status := LoanStatus.vencido } = false := rfl
    simp only [h, if_true, h2, Bool.false_eq_true, if_false]
  · simp only [Bool.not_eq_true] at h
    simp only [h, Bool.false_eq_true, if_false]

/-- Claim C8 counterexample: on a store with one overdue activo loan the
refresh transitions it but returns 0, not the number of transitioned
loans. -/
theorem update_overdue_loans_count_counterexample :
    (update_overdue_loans 5 dbOverdueEx).1 ≠
      (dbOverdueEx.loans.filter (overdueLoanMatch 5)).length := by
  decide

/-- Claim C8 (amended): the refresh transitions exactly the loans with
status activo, due date in the past and no return date — each matching
loan becomes vencido, every other row and table is untouched — but its
return value is the constant 0 (`rowcount` is unavailable through
`execute_query`), not the number of transitioned loans. -/
theorem update_overdue_loans_amended (now : Int) (db : DB) :
    (update_overdue_loans now db).1 = 0
    ∧ (update_overdue_loans now db).2.loans.length = db.loans.length
    ∧ (∀ i (h1 : i < db.loans.length) (h2 : i < (update_overdue_loans now db).2.loans.length),
        (update_overdue_loans now db).2.loans.get ⟨i, h2⟩ =
          (if overdueLoanMatch now (db.loans.get ⟨i, h1⟩) then
            { db.loans.get ⟨i, h1⟩ with status := LoanStatus.vencido }
          else db.loans.get ⟨i, h1⟩))
    ∧ (update_overdue_loans now db).2.users = db.users
    ∧ (update_overdue_loans now db).2.books = db.books
    ∧ (update_overdue_loans now db).2.reviews = db.reviews := by
  refine ⟨rfl, by simp [update_overdue_loans], ?_, rfl, rfl, rfl⟩
  intro i h1 h2
  simp [update_overdue_loans, List.get_eq_getElem, List.getElem_map]

/-- Witness for the amended C8: the overdue loan at index 0 of the
concrete store is transitioned to vencido while the call returns 0. -/
theorem update_overdue_loans_amended_witness :
    (update_overdue_loans 5 dbOverdueEx).1 = 0
    ∧ (update_overdue_loans 5 dbOverdueEx).2.loans.get ⟨0, by decide⟩ =
        { ({ exLoanActivo with due_date := 1 } : Loan) with status := LoanStatus.vencido } := by
  have h := update_overdue_loans_amended 5 dbOverdueEx
  refine ⟨h.1, ?_⟩
  have h3 := h.2.2.1 0 (by decide) (by decide)
  rw [h3]
  decide

/-- Claim C9: deleting a review touches only the reviews table (loans,
books and users — in particular every `has_review` flag — are
unchanged), and a user who created the review through their only
devuelto loan for the book and then deleted it is refused a second
review for the same pair: the located loan still carries
`has_review = true`, so the handler answers the already-reviewed
error. -/
theorem delete_review_frame_and_permanence :
    (∀ (db : DB) (review_id : Nat) (username : String) (role : Role),
        (delete_review db review_id username role).2.loans = db.loans
        ∧ (delete_review db review_id username role).2.books = db.books
        ∧ (delete_review db review_id username role).2.users = db.users)
    ∧ ∀ (db : DB) (uname : String) (uid bid rating rating2 : Nat)
        (comment comment2 : Option String) (now now2 : Int) (rid rid2 : Nat)
        (role : Role) (ln : Loan),
        get_user_id_by_username db uname = some uid →
        existsReviewFor db uid bid = false →
        mostRecentDevueltoLoan db uid bid = some ln →
        ln.has_review = false →
        (devueltoLoansFor db uid bid).length = 1 →
        ∃ r d1 d2,
          create_review db uname bid rating comment now rid = (Except.ok r, [d1, d2])
          ∧ (delete_review d2 rid uname role).1 = Except.ok ()
          ∧ (delete_review d2 rid uname role).2.loans = d2.loans
          ∧ (create_review (delete_review d2 rid uname role).2 uname bid rating2 comment2
              now2 rid2).1 = Except.error ReviewError.alreadyReviewed := by
  constructor
  · intro db review_id username role
    unfold delete_review
    repeat' split
    all_goals exact ⟨rfl, rfl, rfl⟩
  · intro db uname uid bid rating rating2 comment comment2 now now2 rid rid2 role ln
    intro hu hex hml hhr _honly
    refine ⟨mkReview rid uid bid rating comment now,
      { db with reviews := mkReview rid uid bid rating comment now :: db.reviews },
      { db with
          reviews := mkReview rid uid bid rating comment now :: db.reviews,
          loans := markLoanReviewed db.loans ln.id }, ?_, ?_, ?_, ?_⟩
    · simp [create_review, hu, hex, hml, hhr]
    · have hu' := hu
      rw [get_user_id_by_username] at hu'
      simp [delete_review, mkReview, get_user_id_by_username, hu']
    · have hu' := hu
      rw [get_user_id_by_username] at hu'
      simp [delete_review, mkReview, get_user_id_by_username, hu']
    · have hu' := hu
      rw [get_user_id_by_username] at hu'
      have hdel : (delete_review
          { users := db.users, books := db.books, loans := markLoanReviewed db.loans ln.id,
            reviews := mkReview rid uid bid rating comment now :: db.reviews } rid uname role).2 =
          { users := db.users, books := db.books, loans := markLoanReviewed db.loans ln.id,
            reviews := db.reviews.filter (fun x => !(x.id == rid)) } := by
        simp [delete_review, mkReview, get_user_id_by_username, hu']
      rw [hdel]
      have hex3 : existsReviewFor
          { users := db.users, books := db.books, loans := markLoanReviewed db.loans ln.id,
            reviews := db.reviews.filter (fun x => !(x.id == rid)) } uid bid = false :=
        any_filter_false _ _ db.reviews hex
      have hml3 : mostRecentDevueltoLoan
          { users := db.users, books := db.books, loans := markLoanReviewed db.loans ln.id,
            reviews := db.reviews.filter (fun x => !(x.id == rid)) } uid bid =
          some (markIfLoan ln.id ln) := by
        rw [mostRecentDevuelto_markLoan db _ ln.id uid bid rfl, hml]
        rfl
      have hhr3 : (markIfLoan ln.id ln).has_review = true := by
        simp [markIfLoan]
      simp [create_review, get_user_id_by_username, hu', hex3, hml3, hhr3]

/-- Witness for C9: in the concrete eligible store, create then delete
then re-create is refused with the already-reviewed error, and the
deletion leaves the loans table unchanged. -/
theorem delete_review_frame_and_permanence_witness :
    ∃ r d1 d2,
      create_review dbReviewEx "u" 1 5 none 10 7 = (Except.ok r, [d1, d2])
      ∧ (delete_review d2 7 "u" Role.usuario).1 = Except.ok ()
      ∧ (delete_review d2 7 "u" Role.usuario).2.loans = d2.loans
      ∧ (create_review (delete_review d2 7 "u" Role.usuario).2 "u" 1 4 none 20 8).1 =
          Except.error ReviewError.alreadyReviewed :=
  delete_review_frame_and_permanence.2 dbReviewEx "u" 1 1 5 4 none none 10 20 7 8
    Role.usuario exLoanDevuelto (by decide) (by decide) (by decide) (by decide) (by decide)

/-- Claim C10: book creation validates `available_copies ≤ total_copies`
(any payload violating it is rejected at the model boundary), but the
partial update path applies its fields independently: a store
satisfying invariant I1 and a field-validated `BookUpdate` exist for
which `update_book` succeeds and leaves a book with more available than
total copies — the update operation does not preserve I1. -/
theorem update_book_breaks_invariant_I1 :
    (∀ p : BookCreatePayload, p.total_copies < p.available_copies →
        ∃ m, parseBookCreate p = Except.error m)
    ∧ ∃ (db : DB) (book_id : Nat) (u : BookUpdate) (b : Book) (db' : DB),
        invariantI1 db = true ∧ bookUpdateValid u = true ∧
        update_book db book_id u = (Except.ok b, db') ∧
        (∃ bk ∈ db'.books, bk.total_copies < bk.available_copies) ∧
        invariantI1 db' = false := by
  constructor
  · intro p hp
    unfold parseBookCreate
    repeat' split
    all_goals exact ⟨_, rfl⟩
  · exact ⟨dbC10, 1, updC10, _, _, by decide, by decide, rfl, by decide, by decide⟩

/-- Witness for C10: a concrete over-stocked create payload is rejected,
and the concrete I1-breaking update exists. -/
theorem update_book_breaks_invariant_I1_witness :
    (∃ m, parseBookCreate payloadBadCopies = Except.error m)
    ∧ ∃ (db : DB) (book_id : Nat) (u : BookUpdate) (b : Book) (db' : DB),
        invariantI1 db = true ∧ bookUpdateValid u = true ∧
        update_book db book_id u = (Except.ok b, db') ∧
        (∃ bk ∈ db'.books, bk.total_copies < bk.available_copies) ∧
        invariantI1 db' = false :=
  ⟨update_book_breaks_invariant_I1.1 payloadBadCopies (by decide),
   update_book_breaks_invariant_I1.2⟩
